import Mathlib

/-
Verification of the quiz-master core (src/quiz.py): data model, filter
engine, session builder and grader, embedded shallowly in Lean.

Modelling conventions:
  * Python dict fields that may be absent become `Option` fields; an
    absent `questions` field and an empty list behave identically in the
    source (`b.get("questions", [])`), so `questions` is a plain list.
  * Python strings are Lean `String`s, but `str.strip()`/`str.lower()`
    are re-implemented over the character list (`String.data`) so that
    every definition evaluates by kernel reduction.
  * Grade values are modelled as `Int` (the numeric case of the comparable
    scalar of the spec); the sentinel `"All"` for grades is represented
    by `none`, exactly as the Start-Quiz handler converts it before
    calling `collect_questions_from_blocks` (src/quiz.py line 100).
  * Randomness (`random.sample`, `random.shuffle`) is modelled by oracle
    parameters: theorems quantify over the drawn sample and over the
    per-type shuffle function, constrained to be a sub-permutation of
    the pool resp. a permutation of each group.
-/

namespace QuizMaster

/-- Python `str.strip()`: drop whitespace from both ends of the character
list. -/
def pystrip (l : List Char) : List Char :=
  ((l.dropWhile Char.isWhitespace).reverse.dropWhile Char.isWhitespace).reverse

/-- Python `str.lower()`: lower-case every character. -/
def pylower (l : List Char) : List Char := l.map Char.toLower

/-- `normalize_answer` (src/quiz.py lines 54-57): `None` maps to the empty
string, any other value is stripped and lower-cased. -/
def normalize_answer : Option String → String
  | none => ""
  | some s => String.mk (pylower (pystrip s.data))

/-- A question record: a dict with optional `type` / `question` / `answer` /
`choices` keys. -/
structure QItem where
  qtype : Option String := none
  question : Option String := none
  answer : Option String := none
  choices : List String := []
deriving DecidableEq

/-- Validity test applied during extraction (src/quiz.py line 50):
`"type" in q and "question" in q and "answer" in q`. -/
def q_valid (q : QItem) : Bool :=
  q.qtype.isSome && q.question.isSome && q.answer.isSome

/-- A question record block: a dict with a `subject`, optional `topic` and
`grade`, and a list of questions (`b.get("questions", [])`). -/
structure Block where
  subject : Option String := none
  topic : Option String := none
  grade : Option Int := none
  questions : List QItem := []
deriving DecidableEq

/-- Sorted deduplication, the model of Python `sorted(set(...))`. -/
def sorted_unique {α : Type} [LinearOrder α] [DecidableEq α] (l : List α) : List α :=
  List.insertionSort (· ≤ ·) l.dedup

/-- `get_topics_and_grades` (src/quiz.py lines 36-40): topics default to
`"General"` when the block has no `topic` key; grades are collected only
from blocks that have a `grade` key; both outputs are sorted unique
lists. -/
def get_topics_and_grades (blocks : List Block) : List String × List Int :=
  (sorted_unique (blocks.map (fun b => b.topic.getD "General")),
   sorted_unique (blocks.filterMap (fun b => b.grade)))

/-- The block filter of `collect_questions_from_blocks` (src/quiz.py lines
46-47): a `none` (or `"All"`) topic filter matches every block, otherwise
the raw `topic` value of the block (`b.get("topic")`, no default!) is compared
for equality; likewise for the grade filter. -/
def block_matches (b : Block) (t : Option String) (g : Option Int) : Bool :=
  (t == none || t == some "All" || b.topic == t) &&
  (g == none || b.grade == g)

/-- `collect_questions_from_blocks` (src/quiz.py lines 42-52): for every
matching block append its valid questions, in source order. -/
def collect_questions_from_blocks :
    List Block → Option String → Option Int → List QItem
  | [], _, _ => []
  | b :: bs, t, g =>
      (if block_matches b t g then b.questions.filter q_valid else []) ++
        collect_questions_from_blocks bs t g

/-- Per-question grading (src/quiz.py lines 229-249): dispatch on
`q.get("type")` (no default here), comparing normalized values; the
`true_false` branch additionally requires the normalized submission to be
literally `"true"` or `"false"`. -/
def grade_one (q : QItem) (user_raw : Option String) : Bool :=
  match q.qtype with
  | some "short_answer" => normalize_answer user_raw == normalize_answer q.answer
  | some "fill_blank" => normalize_answer user_raw == normalize_answer q.answer
  | some "multiple_choice" => normalize_answer user_raw == normalize_answer q.answer
  | some "true_false" =>
      (normalize_answer user_raw == "true" || normalize_answer user_raw == "false")
        && (normalize_answer user_raw == normalize_answer q.answer)
  | _ => normalize_answer user_raw == normalize_answer q.answer

/-- Per-question results of the grading loop, in question order. -/
def grade_results (qs : List QItem) (subs : List (Option String)) : List Bool :=
  (qs.zip subs).map fun p => grade_one p.1 p.2

/-- Final score: count of correct answers (src/quiz.py lines 226-257). -/
def score (qs : List QItem) (subs : List (Option String)) : Nat :=
  (grade_results qs subs).count true

/-- The type key used when grouping a sampled question
(src/quiz.py line 111): `q.get("type", "unknown")`. -/
def type_key (q : QItem) : String := q.qtype.getD "unknown"

/-- The fixed flattening order of the Start-Quiz handler
(src/quiz.py line 120). -/
def quiz_type_order : List String :=
  ["multiple_choice", "true_false", "short_answer", "fill_blank", "unknown"]

/-- The group of sampled questions with a given type key, in sample order
(src/quiz.py lines 109-112). -/
def type_group (sel : List QItem) (t : String) : List QItem :=
  sel.filter (fun q => type_key q == t)

/-- Steps 2-4 of the Start-Quiz handler (src/quiz.py lines 108-121): group
the sample by type key, shuffle each group, and flatten in the fixed type
order.  `shuffle` is the oracle for `random.shuffle` on each group. -/
def grouped_questions (shuffle : String → List QItem → List QItem)
    (sel : List QItem) : List QItem :=
  (quiz_type_order.map (fun t => shuffle t (type_group sel t))).flatten

/-- The mutable Streamlit session fields (src/quiz.py lines 67-75). -/
structure SessionState where
  version : Nat := 0
  quiz_questions : List QItem := []
  quiz_subject : Option String := none
  quiz_config : Option (Option String × Option Int) := none
deriving DecidableEq

/-- The Start-Quiz handler (src/quiz.py lines 96-129) as a state
transformer.  `sample` is the oracle for `random.sample`.  The returned
flag is `true` exactly when the no-matching-questions warning fires, in
which case the session is returned untouched. -/
def start_quiz (blocks : List Block) (subject : String)
    (t : Option String) (g : Option Int)
    (sample : List QItem → List QItem)
    (shuffle : String → List QItem → List QItem)
    (s : SessionState) : SessionState × Bool :=
  let all_qs := collect_questions_from_blocks blocks t g
  if all_qs.isEmpty then (s, true)
  else
    ({ quiz_questions := grouped_questions shuffle (sample all_qs),
       quiz_subject := some subject,
       quiz_config := some (t, g),
       version := s.version + 1 }, false)

/-- The reset handler (src/quiz.py lines 264-269): clear the session fields
and increment the version. -/
def reset_quiz (s : SessionState) : SessionState :=
  { quiz_questions := [], quiz_subject := none, quiz_config := none,
    version := s.version + 1 }

/-- Whole-application state: the subject catalog built at startup plus the
mutable session. -/
structure AppState where
  subjects_data : List (String × List Block) := []
  session : SessionState := {}
deriving DecidableEq

/-- A user interaction the presentation layer can trigger on the core. -/
inductive Action where
  | start (subject : String) (t : Option String) (g : Option Int)
      (sample : List QItem → List QItem)
      (shuffle : String → List QItem → List QItem)
  | reset

/-- One interaction step.  Starting a quiz looks the blocks of the subject up in
the read-only catalog and runs the Start-Quiz handler; reset runs the reset
handler.  Neither touches `subjects_data`. -/
def step (a : Action) (w : AppState) : AppState :=
  match a with
  | .start subject t g sample shuffle =>
      { w with session :=
          (start_quiz ((w.subjects_data.lookup subject).getD [])
            subject t g sample shuffle w.session).1 }
  | .reset => { w with session := reset_quiz w.session }

/-- A whole interaction history. -/
def run (acts : List Action) (w : AppState) : AppState :=
  acts.foldl (fun w a => step a w) w

/-- Concrete true/false question used as witness input. -/
def qTF : QItem :=
  { qtype := some "true_false", question := some "2+2=4", answer := some "True" }

/-- Concrete short-answer question used as witness input. -/
def qSA : QItem :=
  { qtype := some "short_answer", question := some "Capital of France",
    answer := some "Paris" }

/-- Concrete fill-in-the-blank question whose stored answer is whitespace
only, used as witness input. -/
def qBlank : QItem :=
  { qtype := some "fill_blank", question := some "Nothing here", answer := some "   " }

/-- Concrete valid question carrying an unrecognized type string, used in
the counterexample to the session-length claim. -/
def qEssay : QItem :=
  { qtype := some "essay", question := some "Discuss", answer := some "free text" }

/-- Concrete block that omits its `topic` key but holds one valid
question. -/
def bNoTopic : Block :=
  { subject := some "Science", questions := [qSA] }

/-- Concrete starting application state used as witness input. -/
def w0 : AppState :=
  { subjects_data := [("Science", [bNoTopic])],
    session := { version := 3, quiz_questions := [qSA],
                 quiz_subject := some "Science",
                 quiz_config := some (some "General", none) } }

-- ------------------------------------------------------------------
-- Helper lemmas
-- ------------------------------------------------------------------

theorem grade_one_of_not_tf (q : QItem) (sub : Option String)
    (h : q.qtype ≠ some "true_false") :
    grade_one q sub = (normalize_answer sub == normalize_answer q.answer) := by
  unfold grade_one
  split <;> simp_all

-- ------------------------------------------------------------------
-- C5: true/false grading
-- ------------------------------------------------------------------

/-- C5: for a true_false question, a submission is graded correct iff its
normalization is literally "true" or "false" and equals the normalized
stored answer; any other submission is incorrect even if it equals the
stored answer after normalization. -/
theorem true_false_grading_iff (q : QItem) (sub : Option String)
    (hq : q.qtype = some "true_false") :
    grade_one q sub = true ↔
      ((normalize_answer sub = "true" ∨ normalize_answer sub = "false") ∧
        normalize_answer sub = normalize_answer q.answer) := by
  obtain ⟨ty, qq, ans, ch⟩ := q
  cases hq
  simp [grade_one]

/-- Witness for C5: submitting " TRUE " for a true_false question with
stored answer "True" is graded correct. -/
theorem true_false_grading_iff_witness :
    grade_one qTF (some " TRUE ") = true :=
  (true_false_grading_iff qTF (some " TRUE ") rfl).mpr (by decide)

-- ------------------------------------------------------------------
-- C6: case/whitespace insensitivity for non-true_false types
-- ------------------------------------------------------------------

/-- C6: for short_answer, fill_blank, multiple_choice and unknown
questions, grading compares the two normalized values, so any submission
that normalizes to the normalized stored answer (in particular the stored
answer with altered case or added surrounding whitespace) is graded
correct. -/
theorem grade_normalized_iff (q : QItem) (sub : Option String)
    (ht : q.qtype = some "short_answer" ∨ q.qtype = some "fill_blank" ∨
          q.qtype = some "multiple_choice" ∨ q.qtype = some "unknown") :
    (grade_one q sub = true ↔ normalize_answer sub = normalize_answer q.answer) := by
  have hne : q.qtype ≠ some "true_false" := by
    rcases ht with h | h | h | h <;> simp [h]
  rw [grade_one_of_not_tf q sub hne]
  exact beq_iff_eq

/-- Witness for C6: submitting " PARIS " for a short_answer question with
stored answer "Paris" is graded correct. -/
theorem grade_normalized_iff_witness :
    grade_one qSA (some " PARIS ") = true :=
  (grade_normalized_iff qSA (some " PARIS ") (Or.inl rfl)).mpr (by decide)

-- ------------------------------------------------------------------
-- C10: blank submissions for non-true_false types
-- ------------------------------------------------------------------

/-- C10: for a valid question whose type is not true_false, a submission
that normalizes to the empty string (a null or whitespace-only
submission) is graded correct iff the stored answer itself normalizes to
the empty string. -/
theorem blank_submission_iff (q : QItem) (sub : Option String)
    (hv : q_valid q = true) (ht : q.qtype ≠ some "true_false")
    (hb : normalize_answer sub = "") :
    (grade_one q sub = true ↔ normalize_answer q.answer = "") := by
  rw [grade_one_of_not_tf q sub ht, hb]
  simp only [beq_iff_eq]
  exact eq_comm

/-- Witness for C10: a null submission for a fill_blank question whose
stored answer is whitespace only is graded correct. -/
theorem blank_submission_iff_witness :
    grade_one qBlank none = true :=
  (blank_submission_iff qBlank none (by decide) (by decide) (by decide)).mpr
    (by decide)

-- ------------------------------------------------------------------
-- Filter engine lemmas
-- ------------------------------------------------------------------

theorem mem_sorted_unique {α : Type} [LinearOrder α] [DecidableEq α]
    {x : α} {l : List α} : x ∈ sorted_unique l ↔ x ∈ l :=
  (List.perm_insertionSort _ _).mem_iff.trans List.mem_dedup

theorem sorted_unique_sorted {α : Type} [LinearOrder α] [DecidableEq α]
    (l : List α) : (sorted_unique l).Sorted (· ≤ ·) :=
  List.sorted_insertionSort _ _

theorem sorted_unique_nodup {α : Type} [LinearOrder α] [DecidableEq α]
    (l : List α) : (sorted_unique l).Nodup :=
  (List.perm_insertionSort _ _).nodup_iff.mpr (List.nodup_dedup l)

theorem mem_collect_valid (blocks : List Block) (t : Option String)
    (g : Option Int) (q : QItem)
    (hq : q ∈ collect_questions_from_blocks blocks t g) : q_valid q = true := by
  induction blocks with
  | nil => cases hq
  | cons b bs ih =>
    simp only [collect_questions_from_blocks, List.mem_append] at hq
    rcases hq with h | h
    · split at h
      · exact (List.mem_filter.mp h).2
      · cases h
    · exact ih h

-- ------------------------------------------------------------------
-- C7: extraction with no filters
-- ------------------------------------------------------------------

/-- C7: with both filters null, extraction returns exactly the valid
questions of every block, concatenated in block and source order; every
returned item has its `type`, `question` and `answer` fields present. -/
theorem extract_no_filter (blocks : List Block) :
    collect_questions_from_blocks blocks none none =
      (blocks.map (fun b => b.questions.filter q_valid)).flatten ∧
    ∀ q ∈ collect_questions_from_blocks blocks none none,
      q.qtype.isSome ∧ q.question.isSome ∧ q.answer.isSome := by
  constructor
  · induction blocks with
    | nil => rfl
    | cons b bs ih =>
      simp [collect_questions_from_blocks, block_matches, ih]
  · intro q hq
    have hv := mem_collect_valid blocks none none q hq
    simp only [q_valid, Bool.and_eq_true] at hv
    exact ⟨hv.1.1, hv.1.2, hv.2⟩

/-- Witness for C7: extraction from the concrete one-block catalog returns
its one valid question, whose three mandatory fields are present. -/
theorem extract_no_filter_witness :
    qSA.qtype.isSome ∧ qSA.question.isSome ∧ qSA.answer.isSome :=
  (extract_no_filter [bNoTopic]).2 qSA (by decide)

-- ------------------------------------------------------------------
-- C8: listed topics and grades
-- ------------------------------------------------------------------

/-- C8: both outputs of `get_topics_and_grades` are sorted ascending and
deduplicated; a grade appears iff some block explicitly declares it; and
"General" is listed whenever some block omits its `topic` field. -/
theorem topics_and_grades_spec (blocks : List Block) :
    ((get_topics_and_grades blocks).1.Sorted (· ≤ ·)) ∧
    ((get_topics_and_grades blocks).1.Nodup) ∧
    ((get_topics_and_grades blocks).2.Sorted (· ≤ ·)) ∧
    ((get_topics_and_grades blocks).2.Nodup) ∧
    (∀ g : Int, g ∈ (get_topics_and_grades blocks).2 ↔
      ∃ b ∈ blocks, b.grade = some g) ∧
    ((∃ b ∈ blocks, b.topic = none) →
      "General" ∈ (get_topics_and_grades blocks).1) := by
  refine ⟨sorted_unique_sorted _, sorted_unique_nodup _,
    sorted_unique_sorted _, sorted_unique_nodup _, ?_, ?_⟩
  · intro g
    rw [get_topics_and_grades, mem_sorted_unique, List.mem_filterMap]
  · rintro ⟨b, hb, htop⟩
    rw [get_topics_and_grades, mem_sorted_unique, List.mem_map]
    exact ⟨b, hb, by rw [htop]; rfl⟩

/-- Witness for C8: the concrete catalog has a block with no `topic` field,
so "General" is listed among its topics. -/
theorem topics_and_grades_spec_witness :
    "General" ∈ (get_topics_and_grades [bNoTopic]).1 :=
  (topics_and_grades_spec [bNoTopic]).2.2.2.2.2 ⟨bNoTopic, by decide, rfl⟩

-- ------------------------------------------------------------------
-- C2: filtering by the defaulted topic "General"
-- ------------------------------------------------------------------

/-- C2 (code bug): a block that omits its `topic` field is advertised under
the topic "General" by `get_topics_and_grades`, yet filtering extraction by
"General" returns none of its questions, because the filter compares the
raw, un-defaulted `topic` value; with no filter the very same valid
question is returned. -/
theorem general_topic_filter_mismatch :
    (get_topics_and_grades [bNoTopic]).1 = ["General"] ∧
    collect_questions_from_blocks [bNoTopic] none none = [qSA] ∧
    collect_questions_from_blocks [bNoTopic] (some "General") none = [] := by
  decide

-- ------------------------------------------------------------------
-- Session builder lemmas
-- ------------------------------------------------------------------

theorem sum_map_add {α : Type} (f g : α → Nat) (L : List α) :
    (L.map (fun t => f t + g t)).sum = (L.map f).sum + (L.map g).sum := by
  induction L with
  | nil => rfl
  | cons a L ih =>
    simp only [List.map_cons, List.sum_cons, ih]
    omega

theorem sum_map_indicator_of_not_mem {α : Type} [DecidableEq α] (x : α)
    (L : List α) (hx : x ∉ L) :
    (L.map (fun t => if x = t then 1 else 0)).sum = 0 := by
  induction L with
  | nil => rfl
  | cons a L ih =>
    simp only [List.map_cons, List.sum_cons]
    have hxa : x ≠ a := fun h => hx (List.mem_cons.mpr (Or.inl h))
    rw [if_neg hxa, ih (fun h => hx (List.mem_cons_of_mem a h))]

theorem sum_map_indicator_of_mem {α : Type} [DecidableEq α] (x : α)
    (L : List α) (hN : L.Nodup) (hx : x ∈ L) :
    (L.map (fun t => if x = t then 1 else 0)).sum = 1 := by
  induction L with
  | nil => cases hx
  | cons a L ih =>
    simp only [List.map_cons, List.sum_cons]
    rcases List.mem_cons.mp hx with rfl | hx2
    · rw [if_pos rfl,
        sum_map_indicator_of_not_mem x L (List.nodup_cons.mp hN).1]
    · have hxa : x ≠ a := by
        intro h
        exact (List.nodup_cons.mp hN).1 (by rw [← h]; exact hx2)
      rw [if_neg hxa, ih (List.nodup_cons.mp hN).2 hx2]

theorem type_group_cons_length (q : QItem) (rest : List QItem) (t : String) :
    (type_group (q :: rest) t).length =
      (if type_key q = t then 1 else 0) + (type_group rest t).length := by
  simp only [type_group, List.filter_cons]
  by_cases hqt : type_key q = t
  · simp only [hqt, beq_self_eq_true, if_true, List.length_cons]
    omega
  · simp [hqt]

theorem sum_group_lengths (L : List String) (hN : L.Nodup)
    (sel : List QItem) (h : ∀ q ∈ sel, type_key q ∈ L) :
    (L.map (fun t => (type_group sel t).length)).sum = sel.length := by
  induction sel with
  | nil => simp [type_group]
  | cons q rest ih =>
    have hmem : type_key q ∈ L := h q (List.mem_cons_self q rest)
    have hrest : ∀ p ∈ rest, type_key p ∈ L :=
      fun p hp => h p (List.mem_cons_of_mem q hp)
    calc (L.map (fun t => (type_group (q :: rest) t).length)).sum
        = (L.map (fun t =>
            (if type_key q = t then 1 else 0) + (type_group rest t).length)).sum := by
          exact congrArg List.sum
            (List.map_congr_left fun t _ => type_group_cons_length q rest t)
      _ = (L.map (fun t => if type_key q = t then 1 else 0)).sum +
            (L.map (fun t => (type_group rest t).length)).sum :=
          sum_map_add _ _ L
      _ = 1 + rest.length := by
          rw [sum_map_indicator_of_mem _ L hN hmem, ih hrest]
      _ = (q :: rest).length := by
          simp [List.length_cons]; omega

theorem mem_shuffled_group (shuffle : String → List QItem → List QItem)
    (hperm : ∀ t l, (shuffle t l).Perm l) (sel : List QItem) (t : String)
    (q : QItem) (hq : q ∈ shuffle t (type_group sel t)) : type_key q = t := by
  have h2 := (hperm t (type_group sel t)).mem_iff.mp hq
  exact beq_iff_eq.mp (List.mem_filter.mp h2).2

-- ------------------------------------------------------------------
-- C1 (corrected): length of the built session
-- ------------------------------------------------------------------

/-- Counterexample to C1 as stated: a one-element pool holding a valid
question whose type string "essay" is none of the five recognized values.
Its only possible sample is the pool itself (length `min 10 1 = 1`), the
identity shuffle is a permutation, yet the built session is empty: the
flatten step drops the question. -/
theorem session_drops_unrecognized_type :
    q_valid qEssay = true ∧
    ([qEssay] : List QItem) ≠ [] ∧
    min 10 ([qEssay] : List QItem).length = 1 ∧
    (grouped_questions (fun _ l => l) [qEssay]).length = 0 := by
  decide

/-- C1 (amended): for a non-empty pool of valid questions whose type
strings all lie among the five recognized values, every run of the session
builder (any sample without replacement of size `min(10, |pool|)`, any
per-group shuffle) produces a questions list of length `min(10, |pool|)`;
sampled questions with any other type string are silently dropped, so the
restriction on types is necessary. -/
theorem session_length_of_recognized_types
    (pool sel : List QItem) (shuffle : String → List QItem → List QItem)
    (hpool : pool ≠ []) (hvalid : ∀ q ∈ pool, q_valid q = true)
    (hsub : sel.Subperm pool)
    (hlen : sel.length = min 10 pool.length)
    (hperm : ∀ t l, (shuffle t l).Perm l)
    (htypes : ∀ q ∈ sel, type_key q ∈ quiz_type_order) :
    (grouped_questions shuffle sel).length = min 10 pool.length := by
  rw [grouped_questions, List.length_flatten, List.map_map]
  have hcomp :
      (quiz_type_order.map (List.length ∘ fun t => shuffle t (type_group sel t)))
        = quiz_type_order.map (fun t => (type_group sel t).length) :=
    List.map_congr_left fun t _ => (hperm t (type_group sel t)).length_eq
  rw [hcomp, sum_group_lengths quiz_type_order (by decide) sel htypes, hlen]

/-- Witness for C1 (amended): a two-question pool of recognized types,
sampled whole with the identity shuffle, yields a session of length
`min 10 2 = 2`. -/
theorem session_length_of_recognized_types_witness :
    (grouped_questions (fun _ l => l) [qTF, qSA]).length =
      min 10 ([qTF, qSA] : List QItem).length :=
  session_length_of_recognized_types [qTF, qSA] [qTF, qSA] (fun _ l => l)
    (by decide) (by decide) (List.Subperm.refl _) (by decide)
    (fun _ l => List.Perm.refl l) (by decide)

-- ------------------------------------------------------------------
-- C3: type grouping of the built session
-- ------------------------------------------------------------------

/-- C3: every run of the session builder returns a concatenation of five
(possibly empty) groups in the fixed order multiple_choice, true_false,
short_answer, fill_blank, unknown, each group containing only questions of
its type. -/
theorem session_grouped_in_type_order (sel : List QItem)
    (shuffle : String → List QItem → List QItem)
    (hperm : ∀ t l, (shuffle t l).Perm l) :
    ∃ g1 g2 g3 g4 g5 : List QItem,
      grouped_questions shuffle sel = g1 ++ g2 ++ g3 ++ g4 ++ g5 ∧
      (∀ q ∈ g1, type_key q = "multiple_choice") ∧
      (∀ q ∈ g2, type_key q = "true_false") ∧
      (∀ q ∈ g3, type_key q = "short_answer") ∧
      (∀ q ∈ g4, type_key q = "fill_blank") ∧
      (∀ q ∈ g5, type_key q = "unknown") := by
  refine ⟨shuffle "multiple_choice" (type_group sel "multiple_choice"),
    shuffle "true_false" (type_group sel "true_false"),
    shuffle "short_answer" (type_group sel "short_answer"),
    shuffle "fill_blank" (type_group sel "fill_blank"),
    shuffle "unknown" (type_group sel "unknown"), ?_, ?_, ?_, ?_, ?_, ?_⟩
  · simp [grouped_questions, quiz_type_order, List.append_assoc]
  · exact fun q hq => mem_shuffled_group shuffle hperm sel _ q hq
  · exact fun q hq => mem_shuffled_group shuffle hperm sel _ q hq
  · exact fun q hq => mem_shuffled_group shuffle hperm sel _ q hq
  · exact fun q hq => mem_shuffled_group shuffle hperm sel _ q hq
  · exact fun q hq => mem_shuffled_group shuffle hperm sel _ q hq

/-- Witness for C3: the grouping property instantiated at a concrete
two-question sample and the identity shuffle. -/
theorem session_grouped_in_type_order_witness :
    ∃ g1 g2 g3 g4 g5 : List QItem,
      grouped_questions (fun _ l => l) [qTF, qSA] = g1 ++ g2 ++ g3 ++ g4 ++ g5 ∧
      (∀ q ∈ g1, type_key q = "multiple_choice") ∧
      (∀ q ∈ g2, type_key q = "true_false") ∧
      (∀ q ∈ g3, type_key q = "short_answer") ∧
      (∀ q ∈ g4, type_key q = "fill_blank") ∧
      (∀ q ∈ g5, type_key q = "unknown") :=
  session_grouped_in_type_order [qTF, qSA] (fun _ l => l)
    (fun _ l => List.Perm.refl l)

-- ------------------------------------------------------------------
-- Session state lemmas
-- ------------------------------------------------------------------

theorem step_keeps_catalog (a : Action) (w : AppState) :
    (step a w).subjects_data = w.subjects_data := by
  cases a <;> rfl

theorem step_version_mono (a : Action) (w : AppState) :
    w.session.version ≤ (step a w).session.version := by
  cases a with
  | reset => exact Nat.le_succ _
  | start subject t g sample shuffle =>
    simp only [step, start_quiz]
    split
    · exact Nat.le_refl _
    · exact Nat.le_succ _

theorem step_version_of_change (a : Action) (w : AppState)
    (h : (step a w).session ≠ w.session) :
    (step a w).session.version = w.session.version + 1 := by
  cases a with
  | reset => rfl
  | start subject t g sample shuffle =>
    simp only [step, start_quiz] at h ⊢
    split at h
    case isTrue => exact absurd rfl h
    case isFalse hc => rw [if_neg hc]

theorem run_version_mono (acts : List Action) (w : AppState) :
    w.session.version ≤ (run acts w).session.version := by
  induction acts generalizing w with
  | nil => exact Nat.le_refl _
  | cons a acts ih =>
    simp only [run, List.foldl_cons]
    exact (step_version_mono a w).trans (ih (step a w))

-- ------------------------------------------------------------------
-- C4: empty filtered pool leaves the session untouched
-- ------------------------------------------------------------------

/-- C4: when the filtered pool for the chosen subject, topic and grade is
empty, the Start-Quiz handler raises the no-matching-questions warning
(the returned flag) and the whole application state — session questions,
subject, filter config and version included — is exactly what it was. -/
theorem start_empty_pool_unchanged (w : AppState) (subject : String)
    (t : Option String) (g : Option Int)
    (sample : List QItem → List QItem)
    (shuffle : String → List QItem → List QItem)
    (h : collect_questions_from_blocks
        ((w.subjects_data.lookup subject).getD []) t g = []) :
    start_quiz ((w.subjects_data.lookup subject).getD [])
        subject t g sample shuffle w.session = (w.session, true) ∧
    step (.start subject t g sample shuffle) w = w := by
  have h1 : start_quiz ((w.subjects_data.lookup subject).getD [])
      subject t g sample shuffle w.session = (w.session, true) := by
    simp [start_quiz, h]
  exact ⟨h1, by simp [step, h1]⟩

/-- Witness for C4: starting a quiz for a subject absent from the concrete
catalog (empty pool) warns and leaves the state unchanged. -/
theorem start_empty_pool_unchanged_witness :
    step (.start "History" none none (fun l => l) (fun _ l => l)) w0 = w0 :=
  (start_empty_pool_unchanged w0 "History" none none (fun l => l)
    (fun _ l => l) rfl).2

-- ------------------------------------------------------------------
-- C9: reset semantics and version monotonicity
-- ------------------------------------------------------------------

/-- C9: resetting increments the version by exactly one and clears the
questions, subject and filter config while leaving the subject catalog
untouched; moreover no interaction (start or reset) touches the catalog,
every interaction leaves the version equal or incremented by one — it is
incremented exactly when the session changes — and across any interaction
history the version never decreases, so a version value is never
reused for a different question set. -/
theorem reset_clears_and_versions_increase (w : AppState) :
    (step Action.reset w).subjects_data = w.subjects_data ∧
    (step Action.reset w).session.version = w.session.version + 1 ∧
    (step Action.reset w).session.quiz_questions = [] ∧
    (step Action.reset w).session.quiz_subject = none ∧
    (step Action.reset w).session.quiz_config = none ∧
    (∀ a : Action, (step a w).subjects_data = w.subjects_data) ∧
    (∀ a : Action, w.session.version ≤ (step a w).session.version) ∧
    (∀ a : Action, (step a w).session ≠ w.session →
      (step a w).session.version = w.session.version + 1) ∧
    (∀ acts : List Action, w.session.version ≤ (run acts w).session.version) :=
  ⟨rfl, rfl, rfl, rfl, rfl,
    fun a => step_keeps_catalog a w,
    fun a => step_version_mono a w,
    fun a h => step_version_of_change a w h,
    fun acts => run_version_mono acts w⟩

/-- Witness for C9: a concrete reset bumps the version of the concrete
state by one. -/
theorem reset_clears_and_versions_increase_witness :
    (step Action.reset w0).session.version = w0.session.version + 1 :=
  (reset_clears_and_versions_increase w0).2.2.2.2.2.2.2.1 Action.reset
    (by decide)

end QuizMaster
